import Mathlib

/-!
# Verification of the buoycam fetcher against its specification

A shallow embedding of `buoycam_fetcher.py` (NOAA buoycam image and
observation fetcher).  Python values are modelled as follows:

* `str`            → `String`
* `int`            → `ℤ` (`int` is unbounded in Python)
* `float`          → `ℚ` (exact arithmetic; the decimal literals of the
  source are exact in `ℚ`; `inf`/`nan` forms never occur in the data the
  program handles and are not modelled)
* `dict`           → association list with Python's insert/overwrite
  semantics (`dinsert` keeps the original position of an existing key)
* `datetime.datetime` (UTC) → `ℤ`, minutes on the proleptic Gregorian
  timeline (minute 0 = 0001-01-01 00:00 UTC); `timedelta` subtraction is
  integer subtraction on that timeline
* raised exceptions → `Except String`, carrying the exception class name
* filesystem writes → an explicit list of `(path, data)` pairs returned
  by the function that performs them
* HTTP and image decoding → an explicit environment record (`FetchEnv`)
  mapping a URL to a response and a body to an optionally-decoded image.

Functions keep the names of the source where Lean allows it.
-/

/-- Decidable equality of `Except` results, for evaluating the model on
concrete inputs. -/
instance {ε α : Type} [DecidableEq ε] [DecidableEq α] : DecidableEq (Except ε α) :=
  fun x y =>
    match x, y with
    | .ok a, .ok b =>
      if h : a = b then .isTrue (h ▸ rfl) else .isFalse (fun hc => h (Except.ok.inj hc))
    | .error a, .error b =>
      if h : a = b then .isTrue (h ▸ rfl) else .isFalse (fun hc => h (Except.error.inj hc))
    | .ok _, .error _ => .isFalse (fun hc => Except.noConfusion hc)
    | .error _, .ok _ => .isFalse (fun hc => Except.noConfusion hc)

/-! ## Python dictionary model -/

/-- Python `dict` lookup (`d[k]` / `d.get(k)`): the value stored for `k`. -/
def dget? {α : Type} (d : List (String × α)) (k : String) : Option α :=
  match d.find? (fun p => p.1 == k) with
  | some p => some p.2
  | none => none

/-- Python `k in d`. -/
def dmem {α : Type} (d : List (String × α)) (k : String) : Bool :=
  (dget? d k).isSome

/-- Python `d[k] = v`: overwrite in place, append if the key is new. -/
def dinsert {α : Type} (d : List (String × α)) (k : String) (v : α) :
    List (String × α) :=
  match d with
  | [] => [(k, v)]
  | p :: t => if p.1 == k then (k, v) :: t else p :: dinsert t k v

/-! ## Python string helpers -/

/-- Index of the first occurrence of `needle` in a character list,
`-1` when absent (Python `str.find`). -/
def pyFindList : List Char → List Char → ℤ
  | hay, needle =>
    if needle.isPrefixOf hay then 0
    else
      match hay with
      | [] => -1
      | _ :: t =>
        let r := pyFindList t needle
        if r = -1 then -1 else r + 1

/-- Python `s.find(sub)`. -/
def pyFind (s sub : String) : ℤ :=
  pyFindList s.data sub.data

/-- Python slice `s[a:b]` for non-negative bounds (clamping like Python). -/
def pySlice (s : String) (a b : ℕ) : String :=
  ⟨(s.data.drop a).take (b - a)⟩

/-- Python slice `s[a:]` for a non-negative bound. -/
def pySliceFrom (s : String) (a : ℕ) : String :=
  ⟨s.data.drop a⟩

/-- Python `s[:-1]`. -/
def pyDropLast (s : String) : String :=
  ⟨s.data.dropLast⟩

/-- Worker for `pySplitWs`: the first argument is the reversed current
word. -/
def pySplitWsAux : List Char → List Char → List String
  | w, [] => if w = [] then [] else [⟨w.reverse⟩]
  | w, c :: t =>
    if c.isWhitespace then
      if w = [] then pySplitWsAux [] t else ⟨w.reverse⟩ :: pySplitWsAux [] t
    else pySplitWsAux (c :: w) t

/-- Python `s.split()` — split on whitespace runs, dropping empty pieces. -/
def pySplitWs (s : String) : List String :=
  pySplitWsAux [] s.data

/-- Worker for `pySplitChar`. -/
def pySplitCharAux (sep : Char) : List Char → List Char → List String
  | w, [] => [⟨w.reverse⟩]
  | w, c :: t =>
    if c = sep then ⟨w.reverse⟩ :: pySplitCharAux sep [] t
    else pySplitCharAux sep (c :: w) t

/-- Python `s.split(sep)` for a one-character separator (empty pieces
kept, as in Python). -/
def pySplitChar (s : String) (sep : Char) : List String :=
  pySplitCharAux sep [] s.data

/-- Python `s.strip()` on a character list. -/
def pyStripChars (cs : List Char) : List Char :=
  ((cs.dropWhile Char.isWhitespace).reverse.dropWhile Char.isWhitespace).reverse

/-! ## Python `int()` and `float()` on strings

A numeric digit group in Python may contain single underscores between
digits ("1_2" parses, "_1", "1_", "1__2" do not). -/

/-- Continuation of a digit group: digits, with single underscores that
must be followed by a digit. -/
def groupRest : List Char → Bool
  | [] => true
  | c :: t =>
    if c.isDigit then groupRest t
    else if c = '_' then
      match t with
      | c2 :: t2 => c2.isDigit && groupRest t2
      | [] => false
    else false

/-- A valid Python digit group: nonempty, starts with a digit,
underscores only between digits. -/
def validDigitGroup : List Char → Bool
  | [] => false
  | c :: t => c.isDigit && groupRest t

/-- Numeric value of the digits of a group (underscores ignored). -/
def groupVal (cs : List Char) : ℕ :=
  (cs.filter Char.isDigit).foldl (fun a c => a * 10 + (c.toNat - 48)) 0

/-- Number of digits in a group (underscores ignored). -/
def groupDigits (cs : List Char) : ℕ :=
  (cs.filter Char.isDigit).length

/-- Python `int(s)`: strip, optional sign, digit group; raises
`ValueError` otherwise. -/
def pyInt (s : String) : Except String ℤ :=
  match pyStripChars s.data with
  | '+' :: t => if validDigitGroup t then .ok (groupVal t) else .error "ValueError"
  | '-' :: t => if validDigitGroup t then .ok (-(groupVal t : ℤ)) else .error "ValueError"
  | t => if validDigitGroup t then .ok (groupVal t) else .error "ValueError"

/-- Split a character list at the first `e`/`E` (exponent marker). -/
def splitExp : List Char → List Char × Option (List Char)
  | [] => ([], none)
  | c :: t =>
    if c = 'e' ∨ c = 'E' then ([], some t)
    else
      let r := splitExp t
      (c :: r.1, r.2)

/-- Split a character list at the first `.`. -/
def splitDot : List Char → List Char × Option (List Char)
  | [] => ([], none)
  | c :: t =>
    if c = '.' then ([], some t)
    else
      let r := splitDot t
      (c :: r.1, r.2)

/-- Value of a mantissa `intpart [. fracpart]` as an exact rational. -/
def mantissaVal? (cs : List Char) : Option ℚ :=
  match splitDot cs with
  | (ip, none) =>
    if validDigitGroup ip then some ((groupVal ip : ℚ)) else none
  | (ip, some fp) =>
    if ip = [] ∧ fp = [] then none
    else if (ip = [] ∨ validDigitGroup ip) ∧ (fp = [] ∨ validDigitGroup fp) then
      some ((groupVal ip : ℚ) + (groupVal fp : ℚ) / (10 : ℚ) ^ (groupDigits fp))
    else none

/-- Signed exponent group after `e`/`E`. -/
def expVal? (cs : List Char) : Option ℤ :=
  match cs with
  | '+' :: t => if validDigitGroup t then some (groupVal t) else none
  | '-' :: t => if validDigitGroup t then some (-(groupVal t : ℤ)) else none
  | t => if validDigitGroup t then some (groupVal t) else none

/-- Unsigned part of Python `float(s)`. -/
def pyFloatMag? (cs : List Char) : Option ℚ :=
  match splitExp cs with
  | (m, none) => mantissaVal? m
  | (m, some e) =>
    match mantissaVal? m, expVal? e with
    | some q, some x => some (q * (10 : ℚ) ^ x)
    | _, _ => none

/-- Python `float(s)`: strip, optional sign, decimal form with optional
exponent; raises `ValueError` otherwise (`inf`/`nan` forms are not
modelled — they never occur in the observation tables). -/
def pyFloat (s : String) : Except String ℚ :=
  match pyStripChars s.data with
  | '+' :: t => match pyFloatMag? t with
    | some q => .ok q
    | none => .error "ValueError"
  | '-' :: t => match pyFloatMag? t with
    | some q => .ok (-q)
    | none => .error "ValueError"
  | t => match pyFloatMag? t with
    | some q => .ok q
    | none => .error "ValueError"

/-! ## Python `str()` rendering of optional values

`f"{x}"` renders `None` as the literal token `None`.  The decimal digits
Python prints for a present `float` are irrelevant to every property
below (only line structure and the `None` token matter), so a present
rational is rendered with its canonical `ℚ` representation. -/

def pyStrOptStr : Option String → String
  | none => "None"
  | some s => s

def pyStrOptRat : Option ℚ → String
  | none => "None"
  | some q => toString q

def pyStrOptInt : Option ℤ → String
  | none => "None"
  | some n => toString n

/-! ## The UTC timeline of `datetime.datetime`

`datetime.datetime(year, month, day, hour, minute, tzinfo=utc)` is a
point of the proleptic Gregorian calendar; we embed it as minutes since
0001-01-01 00:00.  `datetime` range limits (year 1..9999, `OverflowError`
on arithmetic leaving the range) are not modelled: the timeline is all of
`ℤ` and subtraction is exact. -/

/-- Gregorian leap year. -/
def isLeapYear (y : ℕ) : Bool :=
  y % 4 = 0 && (y % 100 ≠ 0 || y % 400 = 0)

/-- Days in a month of the Gregorian calendar. -/
def daysInMonth (y m : ℕ) : ℕ :=
  if m = 2 then (if isLeapYear y then 29 else 28)
  else if m = 4 ∨ m = 6 ∨ m = 9 ∨ m = 11 then 30
  else 31

/-- Days in the months before month `m` of year `y`. -/
def daysBeforeMonth (y m : ℕ) : ℕ :=
  (List.range (m - 1)).foldl (fun a i => a + daysInMonth y (i + 1)) 0

/-- Day number of `y-m-d` counted from 0001-01-01 = day 0 (for `y ≥ 1`). -/
def dateToDays (y m d : ℕ) : ℕ :=
  365 * (y - 1) + ((y - 1) / 4 - (y - 1) / 100 + (y - 1) / 400)
    + daysBeforeMonth y m + (d - 1)

/-- Minutes since 0001-01-01 00:00 of `y-m-d h:mi` (for `y ≥ 1`). -/
def dateToMinutes (y m d h mi : ℕ) : ℤ :=
  ((dateToDays y m d * 24 + h) * 60 + mi : ℕ)

/-- The validation performed by the `datetime.datetime` constructor. -/
def datetimeValid (y m d h mi : ℤ) : Bool :=
  1 ≤ y && y ≤ 9999 && 1 ≤ m && m ≤ 12 && 1 ≤ d &&
  d ≤ (daysInMonth y.toNat m.toNat : ℤ) && 0 ≤ h && h ≤ 23 && 0 ≤ mi && mi ≤ 59

/-- `datetime.datetime(y, m, d, h, mi, tzinfo=utc)`: validates the fields
(raising `ValueError` exactly like the constructor), then yields the
point on the minute timeline. -/
def mkDatetime (y m d h mi : ℤ) : Except String ℤ :=
  if datetimeValid y m d h mi then
    .ok (dateToMinutes y.toNat m.toNat d.toNat h.toNat mi.toNat)
  else .error "ValueError"

/-- Civil date from a day number (day 0 = 0001-01-01), floor-division
form of the standard Gregorian conversion; total on `ℤ` (days before
year 1 cannot arise from a `datetime` value, so their rendering is a
don't-care). -/
def civilFromDays (day : ℤ) : ℤ × ℕ × ℕ :=
  let z := day + 306    -- shift epoch to 0000-03-01
  let era := z.ediv 146097
  let doe := (z.emod 146097).toNat
  let yoe := (doe - doe / 1460 + doe / 36524 - doe / 146096) / 365
  let doy := doe - (365 * yoe + yoe / 4 - yoe / 100)
  let mp := (5 * doy + 2) / 153
  let d := doy - (153 * mp + 2) / 5 + 1
  let m := if mp < 10 then mp + 3 else mp - 9
  let y := (yoe : ℤ) + era * 400 + (if m ≤ 2 then 1 else 0)
  (y, m, d)

/-- Split a minute-timeline point into `(year, month, day, hour, minute)`. -/
def minutesToDate (t : ℤ) : ℤ × ℕ × ℕ × ℕ × ℕ :=
  let day := t.ediv 1440
  let rem := (t.emod 1440).toNat
  let c := civilFromDays day
  (c.1, c.2.1, c.2.2, rem / 60, rem % 60)

/-- Zero-pad the decimal representation of a natural number to `w` digits. -/
def padNum (w n : ℕ) : String :=
  let s := toString n
  ⟨List.replicate (w - s.length) '0' ++ s.data⟩

/-- `date.strftime("%Y_%m_%d_%H%M")`. -/
def fmtDate (t : ℤ) : String :=
  let c := minutesToDate t
  padNum 4 c.1.toNat ++ "_" ++ padNum 2 c.2.1 ++ "_" ++ padNum 2 c.2.2.1
    ++ "_" ++ padNum 2 c.2.2.2.1 ++ padNum 2 c.2.2.2.2

example : fmtDate (dateToMinutes 2024 1 1 12 0) = "2024_01_01_1200" := by decide
example : fmtDate (dateToMinutes 2024 2 29 23 59) = "2024_02_29_2359" := by decide
example : fmtDate (dateToMinutes 2023 12 31 0 5) = "2023_12_31_0005" := by decide
example : fmtDate (dateToMinutes 2000 3 1 7 30) = "2000_03_01_0730" := by decide
example : fmtDate (dateToMinutes 2024 1 1 0 0 - 10) = "2023_12_31_2350" := by decide
example : pyInt "2024" = .ok 2024 := by decide
example : pyInt "0a" = .error "ValueError" := by decide
example : pyFloat "10" = .ok 10 := by decide
example : pyFloat "2.5" = .ok (5 / 2) := by
  rw [show pyFloat "2.5" = .ok ((2 : ℚ) + (5 : ℚ) / (10 : ℚ) ^ (1 : ℕ)) from rfl]
  norm_num
example : pyFloat "MM" = .error "ValueError" := by decide

/-! ## Module constants of `buoycam_fetcher.py` -/

def BUOYCAM_LIST_URL : String := "https://www.ndbc.noaa.gov/buoycams.php"

def BUOYCAM_IMAGE_FILE_URL_BASE : String := "https://www.ndbc.noaa.gov/images/buoycam/"

def OBSERVATION_URL : String := "https://www.ndbc.noaa.gov/data/realtime2"

def BUOYCAM_IMAGE_ROW_LENGTH : ℕ := 6

def IMAGE_WIDTH : ℕ := 2880

def IMAGE_HEIGHT : ℕ := 300

def SUB_IMAGE_WIDTH : ℕ := 480

def SUB_IMAGE_HEIGHT : ℕ := 270

def FRACTION_BLACK_THRESHOLD : ℚ := 0.85

def MISSING_DATA_INDICATOR : String := "MM"

def MAX_REQUESTS_PER_SECOND : ℕ := 30

def NUM_WORKER_THREADS : ℕ := 30

/-! ## `BuoyImageRequest` -/

/-- `BuoyImageRequest`: the information needed for one buoycam image
request.  `description` is `buoy_cam["name"]` from the JSON listing and
may be `null` there, hence `Option`.  `date` is the UTC timestamp on the
minute timeline.  The source constructor defaults `output_dir` to
`"images"`. -/
structure BuoyImageRequest where
  id : String
  tag : String
  description : Option String
  date : ℤ
  output_root_dir : String := "images"
deriving DecidableEq, Repr

namespace BuoyImageRequest

/-- `self.date.strftime("%Y_%m_%d_%H%M")`. -/
def date_string (r : BuoyImageRequest) : String :=
  fmtDate r.date

def image_name (r : BuoyImageRequest) : String :=
  r.tag ++ "_" ++ r.date_string

def image_filename (r : BuoyImageRequest) : String :=
  r.image_name ++ ".jpg"

def url (r : BuoyImageRequest) : String :=
  BUOYCAM_IMAGE_FILE_URL_BASE ++ r.image_filename

def save_directory (r : BuoyImageRequest) : String :=
  r.output_root_dir ++ "/" ++ r.id ++ "/" ++ r.date_string

/-- `save_image_full_path(postfix="")`: the `_{pfx}` part is inserted only
for a non-empty argument. -/
def save_image_full_path (r : BuoyImageRequest) (pfx : String := "") : String :=
  r.save_directory ++ "/" ++ r.image_name
    ++ (if pfx ≠ "" then "_" ++ pfx else "") ++ ".jpg"

end BuoyImageRequest

/-! ## Table parsing (`extract_table_data`) and typed extraction -/

/-- The row dictionaries produced by the table parser. -/
abbrev TableRow : Type := List (String × String)

/-- Worker for `buildEntry`: `entry[h] = values[i]` for each header token,
raising `IndexError` when the row runs out of values (`values[i]` with
`i ≥ len(values)`). -/
def buildEntryGo (values : List String) : ℕ → TableRow → List String →
    Except String TableRow
  | _, entry, [] => .ok entry
  | i, entry, h :: hs =>
    match values.get? i with
    | some v => buildEntryGo values (i + 1) (dinsert entry h v) hs
    | none => .error "IndexError"

/-- The `entry` loop body of `extract_table_data`: one dictionary per data
row, keyed positionally by the header tokens. -/
def buildEntry (header values : List String) : Except String TableRow :=
  buildEntryGo values 0 [] header

/-- The row loop of `extract_table_data`: rows with zero tokens are
skipped, every other row is turned into an entry. -/
def tableRows (header : List String) : List String → List TableRow →
    Except String (List TableRow)
  | [], result => .ok result
  | row :: rest, result =>
    let values := pySplitWs row
    if values.isEmpty then tableRows header rest result
    else
      match buildEntry header values with
      | .ok entry => tableRows header rest (result ++ [entry])
      | .error e => .error e

/-- An HTTP response whose body is text. -/
structure TextResponse where
  status : ℕ
  text : String

/-- `extract_table_data`, given the response of `requests.get(url)`:
`None` on a non-200 status; `ValueError` on fewer than 3 lines; else the
header is line 1 minus its first character, line 2 (units) is skipped and
the remaining lines are parsed positionally. -/
def extract_table_data (response : TextResponse) :
    Except String (Option (List TableRow)) :=
  if response.status ≠ 200 then .ok none
  else
    let lines := pySplitChar response.text '\n'
    if lines.length < 3 then .error "ValueError"
    else
      let header := pySplitWs (pySliceFrom (lines.headD "") 1)
      (tableRows header (lines.drop 2) []).map some

/-- `get_float(row, key, convert_func=None)`: `None` when the key is
absent or the value is the missing-data sentinel, otherwise
`float(row[key])` (which raises `ValueError` on a non-numeric value) with
the optional conversion applied. -/
def get_float (row : TableRow) (key : String)
    (convert_func : Option (ℚ → ℚ) := none) : Except String (Option ℚ) :=
  match dget? row key with
  | none => .ok none
  | some v =>
    if v = MISSING_DATA_INDICATOR then .ok none
    else do
      let x ← pyFloat v
      match convert_func with
      | none => pure (some x)
      | some f => pure (some (f x))

/-- `mps_to_kts`: meters per second to knots. -/
def mps_to_kts (mps : ℚ) : ℚ :=
  mps * 1.94384

/-- `nmi_to_m`: nautical miles to meters. -/
def nmi_to_m (nmi : ℚ) : ℚ :=
  nmi * 1852

/-! ## `Observation` and the observation text file -/

/-- Observation data for a buoy at a specific time.  Every measurement is
optional (`None` when the table reports the sentinel or omits the
column). -/
structure Observation where
  timestamp : String
  wind_speed_kts : Option ℚ
  wind_direction_deg : Option ℚ
  gust_speed_kts : Option ℚ
  wave_height_m : Option ℚ
  dominant_wave_period_s : Option ℚ
  average_wave_period_s : Option ℚ
  mean_wave_direction_deg : Option ℚ
  atmospheric_pressure_hpa : Option ℚ
  air_temperature_c : Option ℚ
  water_temperature_c : Option ℚ
  dewpoint_temperature_c : Option ℚ
  visibility_m : Option ℚ
  pressure_tendency_hpa : Option ℚ
  tide_m : Option ℚ
deriving DecidableEq, Repr

/-- `get_observation_str_for_file`: the text written to
`observation.txt`, built by successive `s += f"..."` just like the
source.  Note the stray colon in the `wave_height_m` line, present in the
source (`f"wave_height_m: {...}"`). -/
def get_observation_str_for_file (station_id : String)
    (description : Option String) (lat_deg lon_deg : Option ℚ)
    (observation : Observation) (angle : Option ℤ := none) : String :=
  let s := "id " ++ station_id ++ "\n"
  let s := s ++ ("description " ++ pyStrOptStr description ++ "\n")
  let s := s ++ ("timestamp " ++ observation.timestamp ++ "\n")
  let s := s ++ ("lat_deg " ++ pyStrOptRat lat_deg ++ "\n")
  let s := s ++ ("lon_deg " ++ pyStrOptRat lon_deg ++ "\n")
  let s := s ++ ("first_image_bearing_deg " ++ pyStrOptInt angle ++ "\n")
  let s := s ++ ("wind_speed_kts " ++ pyStrOptRat observation.wind_speed_kts ++ "\n")
  let s := s ++ ("wind_direction_deg " ++ pyStrOptRat observation.wind_direction_deg ++ "\n")
  let s := s ++ ("gust_speed_kts " ++ pyStrOptRat observation.gust_speed_kts ++ "\n")
  let s := s ++ ("wave_height_m: " ++ pyStrOptRat observation.wave_height_m ++ "\n")
  let s := s ++ ("dominant_wave_period_s " ++ pyStrOptRat observation.dominant_wave_period_s ++ "\n")
  let s := s ++ ("average_wave_period_s " ++ pyStrOptRat observation.average_wave_period_s ++ "\n")
  let s := s ++ ("mean_wave_direction_deg " ++ pyStrOptRat observation.mean_wave_direction_deg ++ "\n")
  let s := s ++ ("atmospheric_pressure_hpa " ++ pyStrOptRat observation.atmospheric_pressure_hpa ++ "\n")
  let s := s ++ ("air_temperature_c " ++ pyStrOptRat observation.air_temperature_c ++ "\n")
  let s := s ++ ("water_temperature_c " ++ pyStrOptRat observation.water_temperature_c ++ "\n")
  let s := s ++ ("dewpoint_temperature_c " ++ pyStrOptRat observation.dewpoint_temperature_c ++ "\n")
  let s := s ++ ("visibility_m " ++ pyStrOptRat observation.visibility_m ++ "\n")
  let s := s ++ ("pressure_tendency_hpa " ++ pyStrOptRat observation.pressure_tendency_hpa ++ "\n")
  let s := s ++ ("tide_m " ++ pyStrOptRat observation.tide_m ++ "\n")
  s

/-! ## `BuoyData` -/

/-- A collection of observations for a buoy, keyed by timestamp string.
`description`, `lat_deg` and `lon_deg` are filled in by `main` from the
JSON listing (whose values may be missing), hence `Option`. -/
structure BuoyData where
  id : String
  observations : List (String × Observation)
  lat_deg : Option ℚ
  lon_deg : Option ℚ
  description : Option String
deriving DecidableEq, Repr

namespace BuoyData

def has_observation (d : BuoyData) (timestamp : String) : Bool :=
  dmem d.observations timestamp

def get_observation (d : BuoyData) (timestamp : String) : Option Observation :=
  if d.has_observation timestamp then dget? d.observations timestamp else none

end BuoyData

/-! ## Filename timestamp extraction and request generation -/

/-- `extract_date_string(filename)`: the substring between the first `_`
and `".jpg"`.  The `start_index == -1` test of the source is kept even
though it can never fire (`find + 1` is at least 0). -/
def extract_date_string (filename : String) : Option String :=
  let start_index := pyFind filename "_" + 1
  if start_index = -1 then none
  else
    let end_index := pyFind filename ".jpg"
    if end_index = -1 then none
    else some (pySlice filename start_index.toNat end_index.toNat)

/-- `date_string_to_date(date_string)`: `None` unless the string has
exactly 15 characters, otherwise `int` conversions of the five fixed
slices (raising `ValueError` on non-digit content, exactly like `int()`)
followed by the `datetime.datetime` constructor (raising `ValueError` on
out-of-range fields). -/
def date_string_to_date (date_string : String) : Except String (Option ℤ) :=
  if date_string.length ≠ 15 then .ok none
  else do
    let year ← pyInt (pySlice date_string 0 4)
    let month ← pyInt (pySlice date_string 5 7)
    let day ← pyInt (pySlice date_string 8 10)
    let hour ← pyInt (pySlice date_string 11 13)
    let minute ← pyInt (pySlice date_string 13 15)
    let d ← mkDatetime year month day hour minute
    pure (some d)

/-- A JSON directory-listing entry: string keys mapping to a string or
`null` (`none`). -/
abbrev BuoyCamEntry : Type := List (String × Option String)

/-- `generate_requests(buoy_cam_list, output_dir, hours_in_past)`.
Entries missing a required field, with a `null` id or image, with no
extractable date string or with a wrong-length date string are skipped;
an unparsable 15-character date string raises (`ValueError` propagates
out of the whole call, nothing is returned for any entry). -/
def generate_requests (buoy_cam_list : List BuoyCamEntry)
    (output_dir : String) (hours_in_past : ℕ) :
    Except String (List BuoyImageRequest) :=
  buoy_cam_list.foldlM (fun image_requests buoy_cam => do
    if ¬ (dmem buoy_cam "id" ∧ dmem buoy_cam "name" ∧ dmem buoy_cam "img") then
      pure image_requests
    else
      match dget? buoy_cam "id" with
      | none => pure image_requests
      | some none => pure image_requests      -- station_id is None
      | some (some station_id) =>
        match dget? buoy_cam "img" with
        | none => pure image_requests
        | some none => pure image_requests    -- no image filename
        | some (some img_filename) =>
          let station_tag := (pySplitChar img_filename '_').headD ""
          match extract_date_string img_filename with
          | none => pure image_requests
          | some img_datetime_string => do
            let latest? ← date_string_to_date img_datetime_string
            match latest? with
            | none => pure image_requests     -- invalid image date, skipped
            | some latest_img_date =>
              let image_dates := (List.range (hours_in_past * 6)).map
                (fun (i : ℕ) => latest_img_date - 10 * (i : ℤ))
              pure (image_requests ++ image_dates.map (fun date =>
                { id := station_id, tag := station_tag,
                  description := (dget? buoy_cam "name").join,
                  date := date, output_root_dir := output_dir })))
    []

/-! ## Images

An image is a pixel function plus dimensions; pixels are RGB triples.
`convert("L")` uses the ITU-R 601-2 luma transform of PIL
(`L = (R*299 + G*587 + B*114) / 1000`, truncated). -/

structure Img where
  width : ℕ
  height : ℕ
  pix : ℕ → ℕ → ℕ × ℕ × ℕ

/-- Luminance of one RGB pixel under `convert("L")`. -/
def lum (p : ℕ × ℕ × ℕ) : ℕ :=
  (p.1 * 299 + p.2.1 * 587 + p.2.2 * 114) / 1000

/-- `img.crop((l, t, r, b))`. -/
def Img.crop (img : Img) (l t r b : ℕ) : Img :=
  ⟨r - l, b - t, fun x y => img.pix (x + l) (y + t)⟩

/-- `split_image(img)`: the six fixed-width crops. -/
def split_image (img : Img) : List Img :=
  (List.range BUOYCAM_IMAGE_ROW_LENGTH).map (fun i =>
    img.crop (i * SUB_IMAGE_WIDTH) 0
      (i * SUB_IMAGE_WIDTH + SUB_IMAGE_WIDTH) SUB_IMAGE_HEIGHT)

/-- Number of pixels of the row-major flattening whose luminance is
exactly 0 (`np.count_nonzero(arr == 0)`). -/
def countBlack (img : Img) : ℕ :=
  (List.range (img.width * img.height)).countP
    (fun k => lum (img.pix (k % img.width) (k / img.width)) == 0)

/-- `fraction_black(img)`: the fraction of the flattened luminance array
that is exactly 0. -/
def fraction_black (img : Img) : ℚ :=
  (countBlack img : ℚ) / ((img.width * img.height : ℕ) : ℚ)

/-! ## OCR (external recognizer, consumed as an opaque capability) -/

/-- Python `str.isnumeric` restricted to the ASCII digits the angle text
can contain. -/
def pyIsNumeric (s : String) : Bool :=
  s.data ≠ [] && s.data.all Char.isDigit

/-- The recognizer: `readtext` yields the recognized text snippets (the
middle component of each easyocr result tuple). -/
structure OCRReader where
  readtext : Img → List String

/-- `OCR.get_angle_from_image`: first snippet, at least 2 characters,
strip the trailing degree glyph, numeric check, range check 0..360. -/
def OCRReader.get_angle_from_image (o : OCRReader) (image : Img) : Option ℤ :=
  match o.readtext image with
  | [] => none
  | text_result :: _ =>
    if text_result.length < 2 then none
    else
      let first_result := pyDropLast text_result
      if ¬ pyIsNumeric first_result then none
      else
        let angle : ℤ := groupVal first_result.data
        if angle < 0 ∨ angle > 360 then none
        else some angle

/-- Module-level `get_angle_from_image(img, ocr_reader)`: asserts the
composite dimensions, then recognizes the fixed bottom-left crop. -/
def get_angle_from_image (img : Img) (ocr_reader : OCRReader) :
    Except String (Option ℤ) :=
  if img.width = IMAGE_WIDTH ∧ img.height = IMAGE_HEIGHT then
    .ok (ocr_reader.get_angle_from_image
      (img.crop 150 (img.height - 30) 250 img.height))
  else .error "AssertionError"

/-! ## Image fetching and processing -/

/-- The body of an HTTP image response. -/
abbrev ImageBody : Type := List ℕ

structure ImageResponse where
  status : ℕ
  content : ImageBody

/-- The ambient network/decoder: what `requests.get` returns per URL and
what `PIL.Image.open` makes of a body (`none` = undecodable). -/
structure FetchEnv where
  fetch : String → ImageResponse
  decode : ImageBody → Option Img

/-- `get_image_file(url)`: `None` on a non-200 status, otherwise
`Image.open(BytesIO(content))`, which raises on an undecodable body. -/
def get_image_file (env : FetchEnv) (url : String) :
    Except String (Option Img) :=
  let response := env.fetch url
  if response.status ≠ 200 then .ok none
  else
    match env.decode response.content with
    | some img => .ok (some img)
    | none => .error "UnidentifiedImageError"

/-- A filesystem write performed by the processor. -/
inductive FileData
  | image (img : Img)
  | text (s : String)

/-- The outcome of `fetch_and_process_image`: the returned boolean and
the writes performed. -/
structure FetchResult where
  success : Bool
  writes : List (String × FileData)

/-- The sub-image loop of `fetch_and_process_image`: sub-image `i` is
saved unless its black fraction exceeds the threshold (`>`). -/
def savedSubWrites (request : BuoyImageRequest) (sub_images : List Img) :
    List (String × FileData) :=
  sub_images.enum.filterMap (fun p =>
    if fraction_black p.2 > FRACTION_BLACK_THRESHOLD then none
    else some (request.save_image_full_path (toString p.1), FileData.image p.2))

/-- `fetch_and_process_image(request, buoy_data, output_dir,
ocr_reader=None)`.  The `output_dir` parameter is never used in the body
(paths come from the request), so its type is arbitrary.  The rate
limiter acquisition (`with request_rate_limit_lock: sleep(1/30)`) only
affects timing and is not part of the value-level model; the
`os.makedirs` call is directory creation, not a data write. -/
def fetch_and_process_image (env : FetchEnv) (request : BuoyImageRequest)
    (buoy_data : BuoyData) {α : Type} (output_dir : α)
    (ocr_reader : Option OCRReader := none) : Except String FetchResult := do
  let img? ← get_image_file env request.url
  match img? with
  | none => pure ⟨false, []⟩
  | some img =>
    if img.width ≠ IMAGE_WIDTH ∨ img.height ≠ IMAGE_HEIGHT then
      pure ⟨false, []⟩
    else do
      let sub_images := split_image img
      let full_write := (request.save_image_full_path "full", FileData.image img)
      let sub_writes := savedSubWrites request sub_images
      let bearing_of_first_image ← match ocr_reader with
        | none => pure (none : Option ℤ)
        | some r => get_angle_from_image img r
      let observation_writes :=
        if buoy_data.has_observation request.date_string then
          match buoy_data.get_observation request.date_string with
          | some observation =>
            [(request.save_directory ++ "/observation.txt",
              FileData.text (get_observation_str_for_file request.id
                buoy_data.description buoy_data.lat_deg buoy_data.lon_deg
                observation bearing_of_first_image))]
          | none => []    -- unreachable: guarded by has_observation
        else []
      pure ⟨true, [full_write] ++ sub_writes ++ observation_writes⟩

/-- The task submission of `main`
(`executor.submit(fetch_and_process_image, request,
buoy_data_lookup[request.id], ocr_reader)`): the three positional
arguments bind the OCR object to the unused `output_dir` slot, leaving
`ocr_reader` at its default `None`. -/
def mainImageTaskCall (env : FetchEnv) (request : BuoyImageRequest)
    (buoy_data : BuoyData) (ocr_reader_object : OCRReader) :
    Except String FetchResult :=
  fetch_and_process_image env request buoy_data ocr_reader_object

/-- The request-filtering loop of `main`.  Both membership tests only
emit warnings; every request is appended to `filtered_requests`, and the
unguarded subscript `buoy_data_lookup[ir.id]` raises `KeyError` when the
station id is not in the map. -/
def filter_requests : List BuoyImageRequest → List (String × BuoyData) →
    List BuoyImageRequest → Except String (List BuoyImageRequest)
  | [], _, filtered_requests => .ok filtered_requests
  | ir :: rest, buoy_data_lookup, filtered_requests =>
    match dget? buoy_data_lookup ir.id with
    | none => .error "KeyError"
    | some bd =>
      let _warned := ¬ bd.has_observation ir.date_string
      filter_requests rest buoy_data_lookup (filtered_requests ++ [ir])

/-! ## Spec-side renderings (for comparison with the source functions) -/

/-- The persistence rule in its amended reading: a sub-image is persisted
exactly when its black fraction is at most the threshold (the boundary
value 0.85 is persisted, the comparison of the source being strict
`>`). -/
def savedSubWritesSpec (request : BuoyImageRequest) (sub_images : List Img) :
    List (String × FileData) :=
  sub_images.enum.filterMap (fun p =>
    if fraction_black p.2 ≤ FRACTION_BLACK_THRESHOLD then
      some (request.save_image_full_path (toString p.1), FileData.image p.2)
    else none)

/-- The `observation.txt` line list as the spec describes it (fixed key
order, each line key-space-value, absent values rendered as the `None`
token), amended with the one deviation present in the source: the
`wave_height_m` key is followed by a colon. -/
def observation_file_lines (station_id : String) (description : Option String)
    (lat_deg lon_deg : Option ℚ) (observation : Observation)
    (angle : Option ℤ) : List String :=
  ["id " ++ station_id,
   "description " ++ pyStrOptStr description,
   "timestamp " ++ observation.timestamp,
   "lat_deg " ++ pyStrOptRat lat_deg,
   "lon_deg " ++ pyStrOptRat lon_deg,
   "first_image_bearing_deg " ++ pyStrOptInt angle,
   "wind_speed_kts " ++ pyStrOptRat observation.wind_speed_kts,
   "wind_direction_deg " ++ pyStrOptRat observation.wind_direction_deg,
   "gust_speed_kts " ++ pyStrOptRat observation.gust_speed_kts,
   "wave_height_m: " ++ pyStrOptRat observation.wave_height_m,
   "dominant_wave_period_s " ++ pyStrOptRat observation.dominant_wave_period_s,
   "average_wave_period_s " ++ pyStrOptRat observation.average_wave_period_s,
   "mean_wave_direction_deg " ++ pyStrOptRat observation.mean_wave_direction_deg,
   "atmospheric_pressure_hpa " ++ pyStrOptRat observation.atmospheric_pressure_hpa,
   "air_temperature_c " ++ pyStrOptRat observation.air_temperature_c,
   "water_temperature_c " ++ pyStrOptRat observation.water_temperature_c,
   "dewpoint_temperature_c " ++ pyStrOptRat observation.dewpoint_temperature_c,
   "visibility_m " ++ pyStrOptRat observation.visibility_m,
   "pressure_tendency_hpa " ++ pyStrOptRat observation.pressure_tendency_hpa,
   "tide_m " ++ pyStrOptRat observation.tide_m]

/-- Terminate every line with a newline and concatenate. -/
def joinLines (lines : List String) : String :=
  String.join (lines.map (fun l => l ++ "\n"))

/-! ## Concrete inputs used to evaluate the model -/

/-- Noon, 2024-01-01 UTC. -/
def cT : ℤ := dateToMinutes 2024 1 1 12 0

/-- A well-formed directory-listing entry. -/
def cEntry : BuoyCamEntry :=
  [("id", some "41001"), ("name", some "East"), ("img", some "Z_2024_01_01_1200.jpg")]

/-- An entry whose 15-character date portion contains a non-digit. -/
def cBadDigitEntry : BuoyCamEntry :=
  [("id", some "41002"), ("name", some "West"), ("img", some "Z_2024_0a_01_1200.jpg")]

/-- An entry whose date portion has the wrong length (skipped, not fatal). -/
def cShortDateEntry : BuoyCamEntry :=
  [("id", some "41003"), ("name", some "South"), ("img", some "Z_2024_1_1.jpg")]

/-- The image request generated for `cEntry` at the latest timestamp. -/
def cReq : BuoyImageRequest :=
  { id := "41001", tag := "Z", description := some "East", date := cT,
    output_root_dir := "images" }

/-- An observation with every measurement absent. -/
def cObsNone : Observation :=
  { timestamp := "2024_01_01_1200", wind_speed_kts := none,
    wind_direction_deg := none, gust_speed_kts := none, wave_height_m := none,
    dominant_wave_period_s := none, average_wave_period_s := none,
    mean_wave_direction_deg := none, atmospheric_pressure_hpa := none,
    air_temperature_c := none, water_temperature_c := none,
    dewpoint_temperature_c := none, visibility_m := none,
    pressure_tendency_hpa := none, tide_m := none }

/-- Buoy data holding exactly the observation for `cReq`'s timestamp. -/
def cBuoyData : BuoyData :=
  { id := "41001", observations := [("2024_01_01_1200", cObsNone)],
    lat_deg := none, lon_deg := none, description := some "East" }

/-- Buoy data with an empty observation store. -/
def cEmptyBuoyData : BuoyData :=
  { id := "41001", observations := [], lat_deg := none, lon_deg := none,
    description := none }

/-- A 480x270 sub-image whose first `m` pixels (row-major) are pure black
and whose remaining pixels are a mid gray. -/
def gradImg (m : ℕ) : Img :=
  ⟨SUB_IMAGE_WIDTH, SUB_IMAGE_HEIGHT,
   fun x y => if y * SUB_IMAGE_WIDTH + x < m then (0, 0, 0) else (100, 100, 100)⟩

/-- A full-size composite image of constant non-black gray. -/
def grayImg : Img :=
  ⟨IMAGE_WIDTH, IMAGE_HEIGHT, fun _ _ => (17, 17, 17)⟩

/-- An environment whose responses always succeed and decode to the gray
composite. -/
def cEnvOk : FetchEnv :=
  ⟨fun _ => ⟨200, []⟩, fun _ => some grayImg⟩

/-- An environment whose responses have a non-success status. -/
def cEnv404 : FetchEnv :=
  ⟨fun _ => ⟨404, []⟩, fun _ => none⟩

/-- An environment whose responses succeed with a body no image decoder
accepts. -/
def cEnvUndecodable : FetchEnv :=
  ⟨fun _ => ⟨200, [0]⟩, fun _ => none⟩

/-- A recognizer that never finds text. -/
def cOcr : OCRReader :=
  ⟨fun _ => []⟩

/-- The request `generate_requests` builds for buoy `sid` (tag `tg`,
listing name `nm`) at `i` ten-minute steps before the latest
timestamp `T`. -/
def stepRequest (sid tg : String) (nm : Option String) (out : String)
    (T : ℤ) (i : ℕ) : BuoyImageRequest :=
  { id := sid, tag := tg, description := nm, date := T - 10 * (i : ℤ),
    output_root_dir := out }

/-- The observation file content written for `cReq` under `cBuoyData`
when bearing extraction is disabled. -/
def cObsWriteContent : String :=
  get_observation_str_for_file "41001" (some "East") none none cObsNone none

/-- The writes `fetch_and_process_image` performs for `cReq` against
`cEnvOk` and `cBuoyData`. -/
def cWrites : List (String × FileData) :=
  [(cReq.save_image_full_path "full", FileData.image grayImg)] ++
    savedSubWrites cReq (split_image grayImg) ++
    [(cReq.save_directory ++ "/observation.txt",
      FileData.text cObsWriteContent)]

/-! ## Helper lemmas -/

theorem except_bind_ok {ε α β : Type} (a : α) (f : α → Except ε β) :
    (Except.ok a >>= f : Except ε β) = f a := rfl

theorem except_bind_error {ε α β : Type} (e : ε) (f : α → Except ε β) :
    (Except.error e >>= f : Except ε β) = Except.error e := rfl

theorem str_append_assoc (a b c : String) : a ++ b ++ c = a ++ (b ++ c) := by
  apply String.ext
  simp [String.data_append]

/-- `values[i]` overruns as soon as the remaining header is longer than
the remaining values. -/
theorem buildEntryGo_overflow (values : List String) :
    ∀ hs : List String, ∀ i entry, i ≤ values.length →
      values.length < i + hs.length →
      buildEntryGo values i entry hs = .error "IndexError" := by
  intro hs
  induction hs with
  | nil =>
    intro i entry hle hlt
    simp at hlt
    omega
  | cons h t ih =>
    intro i entry hle hlt
    unfold buildEntryGo
    cases hgi : values.get? i with
    | none => rfl
    | some v =>
      have hi : i < values.length := (List.get?_eq_some.mp hgi).1
      exact ih (i + 1) (dinsert entry h v) (by omega) (by simp at hlt ⊢; omega)

/-! ## C3: short table rows -/

/-- C3 counterexample: on a table whose single data row has 1 token under
a 2-token header, `extract_table_data` raises `IndexError` instead of
producing a record with the first header key only. -/
theorem extract_table_data_short_row_raises :
    extract_table_data ⟨200, "#WDIR WSPD\nunits here\n270"⟩ =
      .error "IndexError" := by decide

/-- C3 (amended): a data row with fewer tokens than the header is not
tolerated — the entry loop of `extract_table_data` fails with
`IndexError` on that row — while a row with zero tokens is skipped and
parsing continues with the remaining rows. -/
theorem table_parser_short_row (header values : List String)
    (hlt : values.length < header.length) :
    buildEntry header values = .error "IndexError" ∧
    (∀ row rest result, pySplitWs row = [] →
      tableRows header (row :: rest) result = tableRows header rest result) := by
  constructor
  · exact buildEntryGo_overflow values header 0 [] (by omega) (by omega)
  · intro row rest result hrow
    conv_lhs => rw [tableRows]
    simp [hrow]

/-- C3 witness: the amended behavior at the concrete table of the
counterexample. -/
theorem table_parser_short_row_witness :
    buildEntry ["WDIR", "WSPD"] ["270"] = .error "IndexError" ∧
    tableRows ["WDIR", "WSPD"] ["", "270 10"] [] =
      tableRows ["WDIR", "WSPD"] ["270 10"] [] :=
  ⟨(table_parser_short_row ["WDIR", "WSPD"] ["270"] (by decide)).1,
   (table_parser_short_row ["WDIR", "WSPD"] ["270"] (by decide)).2
     "" ["270 10"] [] (by decide)⟩

/-! ## C6: typed extraction -/

/-- C6: `get_float` returns `None` exactly when the key is absent from
the row or the raw value equals the sentinel `"MM"`; otherwise it returns
the parsed value with the optional conversion applied; input `"10"` under
the m/s→knots conversion yields 19.4384, i.e. 10 × 1.94384. -/
theorem get_float_contract (row : TableRow) (key : String)
    (convert_func : Option (ℚ → ℚ)) :
    (get_float row key convert_func = .ok none ↔
      dget? row key = none ∨ dget? row key = some "MM") ∧
    (∀ v q, dget? row key = some v → v ≠ "MM" → pyFloat v = .ok q →
      get_float row key convert_func =
        .ok (some (match convert_func with | none => q | some f => f q))) ∧
    get_float [("WSPD", "10")] "WSPD" (some mps_to_kts) = .ok (some 19.4384) ∧
    (19.4384 : ℚ) = 10 * 1.94384 := by
  refine ⟨⟨?_, ?_⟩, ?_, ?_, by norm_num⟩
  · intro h
    unfold get_float at h
    cases hv : dget? row key with
    | none => exact Or.inl rfl
    | some v =>
      rw [hv] at h
      dsimp only at h
      by_cases hmm : v = MISSING_DATA_INDICATOR
      · exact Or.inr (by rw [hmm]; rfl)
      · rw [if_neg hmm] at h
        cases hp : pyFloat v with
        | error e =>
          rw [hp, except_bind_error] at h
          exact absurd h (by simp)
        | ok q =>
          rw [hp, except_bind_ok] at h
          cases convert_func <;> simp [pure, Except.pure] at h
  · intro h
    unfold get_float
    cases h with
    | inl h => rw [h]
    | inr h =>
      rw [h]
      rfl
  · intro v q hv hmm hp
    unfold get_float
    rw [hv]
    dsimp only
    rw [if_neg (show ¬ v = MISSING_DATA_INDICATOR from hmm), hp,
      except_bind_ok]
    cases convert_func <;> rfl
  · rw [show get_float [("WSPD", "10")] "WSPD" (some mps_to_kts) =
      .ok (some (mps_to_kts ((10 : ℕ) : ℚ))) from rfl]
    unfold mps_to_kts
    norm_num

/-- C6 witness: the contract applied at a present, non-sentinel, numeric
row value. -/
theorem get_float_contract_witness :
    get_float [("ATMP", "2.5")] "ATMP" none =
      .ok (some ((2 : ℚ) + (5 : ℚ) / (10 : ℚ) ^ (1 : ℕ))) :=
  (get_float_contract [("ATMP", "2.5")] "ATMP" none).2.1 "2.5"
    ((2 : ℚ) + (5 : ℚ) / (10 : ℚ) ^ (1 : ℕ)) rfl (by decide) rfl

/-! ## C5: the look-back window -/

/-- C5: for every valid listing entry whose filename embeds the latest
timestamp `T` and every look-back window of `W ≥ 1` hours,
`generate_requests` produces exactly `6·W` requests for that buoy, the
first at timestamp `T`, with timestamps strictly decreasing in steps of
exactly 10 minutes. -/
theorem generate_requests_window (e : BuoyCamEntry) (out : String) (W : ℕ)
    (sid : String) (nm : Option String) (imgfn ds : String) (T : ℤ)
    (hid : dget? e "id" = some (some sid))
    (hnm : dget? e "name" = some nm)
    (himg : dget? e "img" = some (some imgfn))
    (hds : extract_date_string imgfn = some ds)
    (hT : date_string_to_date ds = .ok (some T))
    (hW : 1 ≤ W) :
    generate_requests [e] out W =
      .ok ((List.range (W * 6)).map
        (stepRequest sid ((pySplitChar imgfn '_').headD "") nm out T)) ∧
    ((List.range (W * 6)).map
        (stepRequest sid ((pySplitChar imgfn '_').headD "") nm out T)).length
      = 6 * W ∧
    (((List.range (W * 6)).map
        (stepRequest sid ((pySplitChar imgfn '_').headD "") nm out T)).map
        BuoyImageRequest.date).head? = some T ∧
    ∀ i : ℕ, i + 1 < W * 6 →
      (((List.range (W * 6)).map
          (stepRequest sid ((pySplitChar imgfn '_').headD "") nm out T)).map
          BuoyImageRequest.date).get? (i + 1) = some (T - 10 * (i : ℤ) - 10) ∧
      (((List.range (W * 6)).map
          (stepRequest sid ((pySplitChar imgfn '_').headD "") nm out T)).map
          BuoyImageRequest.date).get? i = some (T - 10 * (i : ℤ)) := by
  refine ⟨?_, ?_, ?_, ?_⟩
  · unfold generate_requests
    simp only [List.foldlM_cons, List.foldlM_nil, dmem, hid, hnm, himg, hds, hT,
      Option.isSome_some, not_true, false_and, and_true, true_and, if_false,
      except_bind_ok, List.nil_append, List.map_map, Option.join]
    rfl
  · simp
    omega
  · obtain ⟨k, hk⟩ : ∃ k, W * 6 = k + 1 := ⟨W * 6 - 1, by omega⟩
    rw [hk, List.range_succ_eq_map]
    simp [stepRequest]
  · intro i hi
    constructor
    · rw [List.get?_map, List.get?_map, List.get?_range hi]
      simp [stepRequest, BuoyImageRequest.date]
      ring
    · rw [List.get?_map, List.get?_map, List.get?_range (show i < W * 6 by omega)]
      simp [stepRequest, BuoyImageRequest.date]

/-- C5 witness: the window property at a concrete listing entry with a
one-hour window. -/
theorem generate_requests_window_witness :
    generate_requests [cEntry] "images" 1 =
      .ok ((List.range (1 * 6)).map
        (stepRequest "41001" "Z" (some "East") "images" cT)) :=
  (generate_requests_window cEntry "images" 1 "41001" (some "East")
    "Z_2024_01_01_1200.jpg" "2024_01_01_1200" cT rfl rfl rfl (by decide)
    (by decide) (by decide)).1

/-! ## C7: unparsable filename timestamps -/

/-- C7 (code bug witness): a 15-character date portion containing a
non-digit makes `generate_requests` raise `ValueError` (from `int()`),
aborting the whole call — the entry is not skipped and later entries are
not processed — whereas a wrong-length date portion is skipped with the
remaining entries still processed. -/
theorem generate_requests_bad_filename_raises :
    generate_requests [cBadDigitEntry, cEntry] "images" 1 = .error "ValueError" ∧
    generate_requests [cShortDateEntry, cEntry] "images" 1 =
      .ok ((List.range 6).map
        (stepRequest "41001" "Z" (some "East") "images" cT)) := by
  constructor
  · decide
  · decide

/-! ## C1: the request "filtering" loop of `main` -/

/-- C1 (code bug witness): the filtering step of `main` raises `KeyError`
as soon as a request's station id is missing from the observation map,
and when the id is present it keeps the request even though the buoy's
Observation Store is empty — no request is ever dropped. -/
theorem filter_requests_keyerror_and_keeps_all :
    filter_requests [cReq] [] [] = .error "KeyError" ∧
    filter_requests [cReq] [("41001", cEmptyBuoyData)] [] = .ok [cReq] ∧
    cEmptyBuoyData.observations = [] := by
  refine ⟨rfl, ?_, rfl⟩
  decide

/-! ## C2: failure modes of the image fetch -/

/-- C2 counterexample: on a success (200) response whose body cannot be
decoded as an image, `fetch_and_process_image` does not return `False` —
the `UnidentifiedImageError` raised by `Image.open` propagates to the
caller. -/
theorem fetch_undecodable_body_raises :
    fetch_and_process_image cEnvUndecodable cReq cBuoyData "images" none =
      .error "UnidentifiedImageError" ∧
    fetch_and_process_image cEnvUndecodable cReq cBuoyData "images" none ≠
      .ok ⟨false, []⟩ := by
  refine ⟨rfl, ?_⟩
  rw [show fetch_and_process_image cEnvUndecodable cReq cBuoyData "images" none
    = .error "UnidentifiedImageError" from rfl]
  exact fun hc => Except.noConfusion hc

/-- C2 (amended): a non-success HTTP status is a soft failure — the call
returns `False` and performs no writes — but a success response with an
undecodable body raises `UnidentifiedImageError`, which propagates to the
orchestrator. -/
theorem fetch_and_process_image_failure_modes (env : FetchEnv)
    (request : BuoyImageRequest) (buoy_data : BuoyData) {α : Type} (od : α)
    (ocr : Option OCRReader) :
    ((env.fetch request.url).status ≠ 200 →
      fetch_and_process_image env request buoy_data od ocr = .ok ⟨false, []⟩) ∧
    ((env.fetch request.url).status = 200 →
      env.decode (env.fetch request.url).content = none →
      fetch_and_process_image env request buoy_data od ocr =
        .error "UnidentifiedImageError") := by
  constructor
  · intro h
    unfold fetch_and_process_image get_image_file
    rw [if_pos h]
    rfl
  · intro h hd
    unfold fetch_and_process_image get_image_file
    rw [if_neg (by simp [h]), hd]
    rfl

/-- C2 witness: both failure modes at concrete environments. -/
theorem fetch_and_process_image_failure_modes_witness :
    fetch_and_process_image cEnv404 cReq cBuoyData "images" none =
      .ok ⟨false, []⟩ ∧
    fetch_and_process_image cEnvUndecodable cReq cBuoyData "images" none =
      .error "UnidentifiedImageError" :=
  ⟨(fetch_and_process_image_failure_modes cEnv404 cReq cBuoyData "images"
      none).1 (by decide),
   (fetch_and_process_image_failure_modes cEnvUndecodable cReq cBuoyData
      "images" none).2 rfl rfl⟩

/-! ## C8: the observation.txt rendering -/

/-- C8 counterexample: line 10 (index 9) of a rendered observation file
is `"wave_height_m: None"` — the key is followed by a colon — not the
claimed `"wave_height_m None"` key-space-value form. -/
theorem observation_file_colon :
    (pySplitChar (get_observation_str_for_file "41001" (some "East") none
        none cObsNone none) '\n').get? 9 = some "wave_height_m: None" ∧
    (pySplitChar (get_observation_str_for_file "41001" (some "East") none
        none cObsNone none) '\n').get? 9 ≠ some "wave_height_m None" := by
  constructor
  · decide
  · decide

/-- C8 (amended): the rendered observation file is exactly the fixed
key-ordered line list, one key-value pair per line separated by a single
space, with absent values rendered as the literal `None` token — except
that the `wave_height_m` key is followed by a colon
(`"wave_height_m: value"`). -/
theorem get_observation_str_characterization (station_id : String)
    (description : Option String) (lat_deg lon_deg : Option ℚ)
    (observation : Observation) (angle : Option ℤ) :
    get_observation_str_for_file station_id description lat_deg lon_deg
        observation angle =
      joinLines (observation_file_lines station_id description lat_deg
        lon_deg observation angle) ∧
    (observation_file_lines station_id description lat_deg lon_deg
        observation angle).length = 20 ∧
    pyStrOptStr none = "None" ∧ pyStrOptRat none = "None" ∧
    pyStrOptInt none = "None" := by
  refine ⟨?_, rfl, rfl, rfl, rfl⟩
  rfl

/-! ## C4: the blank-frame threshold -/

/-- Counting `k < m` over `range n`. -/
theorem countP_range_lt (m : ℕ) :
    ∀ n : ℕ, (List.range n).countP (fun k => decide (k < m)) = min n m := by
  intro n
  induction n with
  | zero => simp
  | succ n ih =>
    rw [List.range_succ, List.countP_append, ih]
    by_cases h : n < m
    · simp [h] <;> omega
    · simp [h] <;> omega

/-- The black-pixel count of the graded test image. -/
theorem countBlack_gradImg (m : ℕ) : countBlack (gradImg m) = min 129600 m := by
  have h : countBlack (gradImg m) =
      (List.range (480 * 270)).countP (fun k => decide (k < m)) := by
    unfold countBlack
    apply List.countP_congr
    intro k hk
    have hP : (k / 480 * 480 + k % 480 < m) ↔ k < m := by omega
    by_cases hlt : k < m
    · simp [gradImg, SUB_IMAGE_WIDTH, SUB_IMAGE_HEIGHT, lum, hP, hlt]
    · simp [gradImg, SUB_IMAGE_WIDTH, SUB_IMAGE_HEIGHT, lum, hP, hlt]
  rw [h, countP_range_lt]

/-- The black fraction of the graded test image. -/
theorem fraction_black_gradImg (m : ℕ) (hm : m ≤ 129600) :
    fraction_black (gradImg m) = (m : ℚ) / 129600 := by
  unfold fraction_black
  rw [countBlack_gradImg, min_eq_right hm]
  norm_num [gradImg, SUB_IMAGE_WIDTH, SUB_IMAGE_HEIGHT]

/-- The sub-image loop on a single sub-image, decided by the threshold
comparison of the source. -/
theorem savedSubWrites_singleton (request : BuoyImageRequest) (s : Img) :
    (fraction_black s > FRACTION_BLACK_THRESHOLD →
      savedSubWrites request [s] = []) ∧
    (¬ (fraction_black s > FRACTION_BLACK_THRESHOLD) →
      savedSubWrites request [s] =
        [(request.save_image_full_path "0", FileData.image s)]) := by
  constructor <;> intro h <;>
    (unfold savedSubWrites
     rw [show ([s] : List Img).enum = [(0, s)] from rfl]
     simp only [List.filterMap_cons, List.filterMap_nil]
     simp [h]
     try rfl)

/-- C4 counterexample: a sub-image whose fraction of pixels at minimum
brightness is exactly 0.85 is persisted by the sub-image loop (the
source comparison is strict `>`), contradicting the claimed exclusion at
the boundary. -/
theorem boundary_fraction_persisted :
    fraction_black (gradImg 110160) = 0.85 ∧
    savedSubWrites cReq [gradImg 110160] =
      [(cReq.save_image_full_path "0", FileData.image (gradImg 110160))] := by
  have hf2 : fraction_black (gradImg 110160) = 0.85 := by
    rw [fraction_black_gradImg 110160 (by norm_num)]
    norm_num
  refine ⟨hf2, ?_⟩
  exact (savedSubWrites_singleton cReq (gradImg 110160)).2
    (by rw [hf2]; norm_num [FRACTION_BLACK_THRESHOLD])

/-- C4 (amended): in the sub-image loop of `fetch_and_process_image` a
sub-image is persisted exactly when its black fraction is at most 0.85
(the strict `>` excludes only strictly above the threshold): the loop
agrees with the boundary-inclusive rule, a sub-image with fraction
exactly 0.85 is persisted, one with 0.90 is excluded, and one with 0.10
is persisted. -/
theorem sub_image_persistence_boundary (request : BuoyImageRequest) :
    (∀ sub_images, savedSubWrites request sub_images =
      savedSubWritesSpec request sub_images) ∧
    (∀ s, fraction_black s = 0.85 → savedSubWrites request [s] =
      [(request.save_image_full_path "0", FileData.image s)]) ∧
    (∀ s, fraction_black s = 0.9 → savedSubWrites request [s] = []) ∧
    (∀ s, fraction_black s = 0.1 → savedSubWrites request [s] =
      [(request.save_image_full_path "0", FileData.image s)]) := by
  have hsingle : ∀ (s : Img) (b : Bool),
      (fraction_black s > FRACTION_BLACK_THRESHOLD) = (b = true) →
      savedSubWrites request [s] =
        (if b then [] else
          [(request.save_image_full_path "0", FileData.image s)]) := by
    intro s b hb
    unfold savedSubWrites
    rw [show ([s] : List Img).enum = [(0, s)] from rfl]
    simp only [List.filterMap_cons, List.filterMap_nil]
    cases b with
    | true => rw [if_pos (by rw [hb])]; rfl
    | false =>
      rw [if_neg (by rw [hb]; simp)]
      rfl
  refine ⟨?_, ?_, ?_, ?_⟩
  · intro subs
    unfold savedSubWrites savedSubWritesSpec
    have hfun : (fun p : ℕ × Img =>
        if fraction_black p.2 > FRACTION_BLACK_THRESHOLD then none
        else some (request.save_image_full_path (toString p.1),
          FileData.image p.2)) =
        (fun p : ℕ × Img =>
          if fraction_black p.2 ≤ FRACTION_BLACK_THRESHOLD then
            some (request.save_image_full_path (toString p.1),
              FileData.image p.2)
          else none) := by
      funext p
      by_cases h : fraction_black p.2 > FRACTION_BLACK_THRESHOLD
      · rw [if_pos h, if_neg (not_le.mpr h)]
      · rw [if_neg h, if_pos (not_lt.mp h)]
    rw [hfun]
  · intro s hs
    have := hsingle s false (by
      rw [hs]
      norm_num [FRACTION_BLACK_THRESHOLD])
    simpa using this
  · intro s hs
    have := hsingle s true (by
      rw [hs]
      norm_num [FRACTION_BLACK_THRESHOLD])
    simpa using this
  · intro s hs
    have := hsingle s false (by
      rw [hs]
      norm_num [FRACTION_BLACK_THRESHOLD])
    simpa using this

/-- C4 witness: the boundary rule evaluated at graded sub-images with
black fractions exactly 0.85, 0.90 and 0.10. -/
theorem sub_image_persistence_boundary_witness :
    savedSubWrites cReq [gradImg 110160] =
      [(cReq.save_image_full_path "0", FileData.image (gradImg 110160))] ∧
    savedSubWrites cReq [gradImg 116640] = [] ∧
    savedSubWrites cReq [gradImg 12960] =
      [(cReq.save_image_full_path "0", FileData.image (gradImg 12960))] :=
  ⟨(sub_image_persistence_boundary cReq).2.1 (gradImg 110160)
      (by rw [fraction_black_gradImg 110160 (by norm_num)]; norm_num),
   (sub_image_persistence_boundary cReq).2.2.1 (gradImg 116640)
      (by rw [fraction_black_gradImg 116640 (by norm_num)]; norm_num),
   (sub_image_persistence_boundary cReq).2.2.2 (gradImg 12960)
      (by rw [fraction_black_gradImg 12960 (by norm_num)]; norm_num)⟩

/-! ## C10: the `main` call site leaves `ocr_reader` at `None` -/

/-- The sub-image loop only writes image files, never text. -/
theorem savedSubWrites_image_only (request : BuoyImageRequest)
    (subs : List Img) (pth c : String) :
    (pth, FileData.text c) ∉ savedSubWrites request subs := by
  intro hmem
  unfold savedSubWrites at hmem
  obtain ⟨⟨i, s⟩, _, heq⟩ := List.mem_filterMap.mp hmem
  by_cases h : fraction_black s > FRACTION_BLACK_THRESHOLD
  · rw [if_pos h] at heq
    exact Option.noConfusion heq
  · rw [if_neg h] at heq
    have h2 := Option.some.inj heq
    exact FileData.noConfusion (congrArg Prod.snd h2)

/-- Every rendered observation file contains the bearing line, built from
the `angle` argument. -/
theorem get_observation_str_bearing_line (sid : String) (d : Option String)
    (la lo : Option ℚ) (o : Observation) (ang : Option ℤ) :
    ∃ pre post, get_observation_str_for_file sid d la lo o ang =
      pre ++ (("first_image_bearing_deg " ++ pyStrOptInt ang ++ "\n") ++ post) := by
  refine ⟨"id " ++ sid ++ "\n" ++ ("description " ++ pyStrOptStr d ++ "\n")
      ++ ("timestamp " ++ o.timestamp ++ "\n")
      ++ ("lat_deg " ++ pyStrOptRat la ++ "\n")
      ++ ("lon_deg " ++ pyStrOptRat lo ++ "\n"),
    ("wind_speed_kts " ++ pyStrOptRat o.wind_speed_kts ++ "\n")
      ++ ("wind_direction_deg " ++ pyStrOptRat o.wind_direction_deg ++ "\n")
      ++ ("gust_speed_kts " ++ pyStrOptRat o.gust_speed_kts ++ "\n")
      ++ ("wave_height_m: " ++ pyStrOptRat o.wave_height_m ++ "\n")
      ++ ("dominant_wave_period_s " ++ pyStrOptRat o.dominant_wave_period_s ++ "\n")
      ++ ("average_wave_period_s " ++ pyStrOptRat o.average_wave_period_s ++ "\n")
      ++ ("mean_wave_direction_deg " ++ pyStrOptRat o.mean_wave_direction_deg ++ "\n")
      ++ ("atmospheric_pressure_hpa " ++ pyStrOptRat o.atmospheric_pressure_hpa ++ "\n")
      ++ ("air_temperature_c " ++ pyStrOptRat o.air_temperature_c ++ "\n")
      ++ ("water_temperature_c " ++ pyStrOptRat o.water_temperature_c ++ "\n")
      ++ ("dewpoint_temperature_c " ++ pyStrOptRat o.dewpoint_temperature_c ++ "\n")
      ++ ("visibility_m " ++ pyStrOptRat o.visibility_m ++ "\n")
      ++ ("pressure_tendency_hpa " ++ pyStrOptRat o.pressure_tendency_hpa ++ "\n")
      ++ ("tide_m " ++ pyStrOptRat o.tide_m ++ "\n"), ?_⟩
  unfold get_observation_str_for_file
  simp [str_append_assoc]

set_option maxHeartbeats 1000000 in
/-- C10: the orchestrated pipeline invokes `fetch_and_process_image` with
`ocr_reader` left at its default `None` (the OCR object is bound to the
unused `output_dir` parameter), so bearing extraction is never performed
and every observation text file written by the task records
`first_image_bearing_deg None`. -/
theorem main_image_task_bearing_none (env : FetchEnv)
    (request : BuoyImageRequest) (buoy_data : BuoyData) (ocr : OCRReader) :
    mainImageTaskCall env request buoy_data ocr =
      fetch_and_process_image env request buoy_data ocr none ∧
    ∀ r pth c, mainImageTaskCall env request buoy_data ocr = .ok r →
      (pth, FileData.text c) ∈ r.writes →
      ∃ pre post, c = pre ++ ("first_image_bearing_deg None\n" ++ post) := by
  refine ⟨rfl, ?_⟩
  intro r pth c hok hmem
  unfold mainImageTaskCall fetch_and_process_image at hok
  cases hg : get_image_file env request.url with
  | error e =>
    rw [hg, except_bind_error] at hok
    exact absurd hok (by simp)
  | ok imgq =>
    rw [hg, except_bind_ok] at hok
    cases imgq with
    | none =>
      have hr : (⟨false, []⟩ : FetchResult) = r := Except.ok.inj hok
      rw [← hr] at hmem
      simp at hmem
    | some img =>
      dsimp only at hok
      by_cases hdim : img.width ≠ IMAGE_WIDTH ∨ img.height ≠ IMAGE_HEIGHT
      · rw [if_pos hdim] at hok
        have hr : (⟨false, []⟩ : FetchResult) = r := Except.ok.inj hok
        rw [← hr] at hmem
        simp at hmem
      · rw [if_neg hdim] at hok
        have hok2 : Except.ok (⟨true,
            [(request.save_image_full_path "full", FileData.image img)] ++
              savedSubWrites request (split_image img) ++
              (if buoy_data.has_observation request.date_string then
                match buoy_data.get_observation request.date_string with
                | some observation =>
                  [(request.save_directory ++ "/observation.txt",
                    FileData.text (get_observation_str_for_file request.id
                      buoy_data.description buoy_data.lat_deg
                      buoy_data.lon_deg observation none))]
                | none => []
              else [])⟩ : FetchResult) = .ok r := hok
        have hr := Except.ok.inj hok2
        rw [← hr] at hmem
        rcases List.mem_append.mp hmem with hmem1 | hmem2
        · rcases List.mem_append.mp hmem1 with hfull | hsub
          · simp at hfull
          · exact absurd hsub (savedSubWrites_image_only request
              (split_image img) pth c)
        · by_cases hhas : buoy_data.has_observation request.date_string
          · rw [if_pos hhas] at hmem2
            cases hobs : buoy_data.get_observation request.date_string with
            | none =>
              rw [hobs] at hmem2
              simp at hmem2
            | some observation =>
              rw [hobs] at hmem2
              simp only [List.mem_singleton, Prod.mk.injEq] at hmem2
              obtain ⟨hpth, hcontent⟩ := hmem2
              injection hcontent with hc
              obtain ⟨pre, post, hsplit⟩ := get_observation_str_bearing_line
                request.id buoy_data.description buoy_data.lat_deg
                buoy_data.lon_deg observation none
              refine ⟨pre, post, ?_⟩
              rw [hc, hsplit]
              rfl
          · rw [if_neg hhas] at hmem2
            simp at hmem2

/-- C10 witness: a full successful run against a constant gray composite,
whose observation file records the bearing as `None`. -/
theorem main_image_task_bearing_none_witness :
    ∃ pre post, cObsWriteContent =
      pre ++ ("first_image_bearing_deg None\n" ++ post) :=
  (main_image_task_bearing_none cEnvOk cReq cBuoyData cOcr).2
    ⟨true, cWrites⟩ (cReq.save_directory ++ "/observation.txt")
    cObsWriteContent rfl
    (List.mem_append_right _ (List.mem_singleton_self _))
